import Mathlib

/-!
Shallow embedding of the social-discovery pipeline:
the InsightIQ discovery client (`discovery_module.py` and the service
variant `app/services/insightiq.py`), the Celery task layer
(`discovery_tasks.py`), and the Redis-backed job status store.

Python dicts holding string keys and string values are embedded as
association lists with in-place-overwrite insertion (Python dict
semantics: assigning to an existing key replaces its value in place,
assigning a fresh key appends it).
-/

namespace SocialDiscovery

/-- A Python dict from string keys to string values, as an association
list with unique keys.  `dictInsert` mirrors `d[k] = v`: it replaces the
value at the first (hence only) occurrence of `k`, or appends `(k, v)`. -/
def dictInsert : List (String × String) → String → String → List (String × String)
  | [], k, v => [(k, v)]
  | (k0, v0) :: rest, k, v =>
    if k0 = k then (k, v) :: rest else (k0, v0) :: dictInsert rest k v

/-- `d.get(k)`: value at key `k`, if present. -/
def dictGet (d : List (String × String)) (k : String) : Option String :=
  (d.find? (fun p => p.1 = k)).map (fun p => p.2)

/-- Membership test `k in d`. -/
def dictHas (d : List (String × String)) (k : String) : Bool :=
  d.any (fun p => p.1 = k)

/-- Python `str.lower()`, as a structural map over the characters
(adequate for the ASCII contact-type tags the code lowers). -/
def pyLower (s : String) : String :=
  String.mk (s.data.map Char.toLower)

/-- One element of a raw profile's `contact_details` list: the dict
`{'type': ..., 'value': ...}` read via `.get('type', '')` and
`.get('value', '')` (absence collapses to `""`). -/
structure ContactDetail where
  ctype : String := ""
  value : String := ""
deriving DecidableEq, Repr

/-- The dict key under which `discovery_module._extract_contact_details`
stores a detail: `email` and `phone` keep the (lowered) type itself,
every other type is stored under `<type>_url`. -/
def dmContactKey (t : String) : String :=
  if t = "email" ∨ t = "phone" then t else t ++ "_url"

/-- One iteration of the loop in
`discovery_module._extract_contact_details`: for a detail with non-empty
(lowered) type and non-empty value, assign `contacts[key] = value`
unconditionally. -/
def dmStep (contacts : List (String × String)) (d : ContactDetail) : List (String × String) :=
  if (pyLower d.ctype) ≠ "" ∧ d.value ≠ "" then
    dictInsert contacts (dmContactKey (pyLower d.ctype)) d.value
  else contacts

/-- `discovery_module.InsightIQDiscovery._extract_contact_details`:
iterate the details in order; a later duplicate of the same type
overwrites the earlier value. -/
def extract_contact_details_dm (details : List ContactDetail) : List (String × String) :=
  details.foldl dmStep []

/-- One iteration of the loop in
`app/services/insightiq._extract_contact_details`: a detail is stored
only when its (lowered) type is not already a key
(`contact_type not in contacts`). -/
def svcStep (contacts : List (String × String)) (d : ContactDetail) : List (String × String) :=
  if (pyLower d.ctype) ≠ "" ∧ d.value ≠ "" ∧ ¬ dictHas contacts (pyLower d.ctype) then
    dictInsert contacts (pyLower d.ctype) d.value
  else contacts

/-- `app/services/insightiq.InsightIQDiscovery._extract_contact_details`:
same iteration, but the first occurrence of a type wins, and the key is
the lowered type itself. -/
def extract_contact_details_svc (details : List ContactDetail) : List (String × String) :=
  details.foldl svcStep []

/-- A raw profile record from the vendor's export endpoint, as read by
`_standardize_results`.  `Option` marks fields that may be absent from
the record; string fields read through `.get(k, '')` default to `""`. -/
structure RawProfile where
  url : String := ""
  platform_username : String := ""
  full_name : String := ""
  follower_count : Option Int := none
  subscriber_count : Option Int := none
  engagement_rate : Option Int := none
  bio : String := ""
  introduction : String := ""
  contact_details : List ContactDetail := []
  loc_city : Option String := none
  loc_state : Option String := none
  loc_country : Option String := none
  audience_credibility_category : Option String := none
  last_post_timestamp : Option String := none
deriving DecidableEq, Repr

/-- One element of the raw-results list handed to `_standardize_results`.
A `malformed` element stands for a record whose shape makes the
per-record body raise (e.g. a non-dict entry); the `try/except` in the
loop catches exactly these. -/
inductive RawResult where
  | valid (p : RawProfile)
  | malformed (tag : String)
deriving DecidableEq, Repr

/-- Python `str.capitalize()`: first character upper-cased, the rest
lower-cased. -/
def pyCapitalize (s : String) : String :=
  match s.data with
  | [] => ""
  | c :: cs => String.mk (c.toUpper :: cs.map Char.toLower)

/-- Python `str.split()` with no argument: split on runs of whitespace,
discarding empty pieces. -/
def pySplit (s : String) : List String :=
  (s.split Char.isWhitespace).filter (fun t => t ≠ "")

/-- The canonical profile produced by
`discovery_module._standardize_results`.  `extra` carries the
`**{k: v for k, v in contact_details.items() if k not in ('email','phone')}`
spread (the per-network contact URLs). -/
structure StdProfile where
  profile_url : String
  handle : String
  display_name : String
  first_name : String
  last_name : String
  platform : String
  follower_count : Int
  engagement_rate : Int
  bio : String
  email : Option String
  phone : Option String
  city : Option String
  state : Option String
  country : Option String
  audience_credibility : Option String
  last_post_date : Option String
  extra : List (String × String)
deriving DecidableEq, Repr

/-- `profile.get('follower_count') or profile.get('subscriber_count', 0)`:
Python `or` falls through on a falsy left operand, i.e. when the
follower-count field is absent (`None`) or its value is `0`. -/
def dmFollowerCount (p : RawProfile) : Int :=
  match p.follower_count with
  | some n => if n = 0 then p.subscriber_count.getD 0 else n
  | none => p.subscriber_count.getD 0

/-- The body of `discovery_module._standardize_results` for one
well-formed record. -/
def stdProfileOf (platform : String) (p : RawProfile) : StdProfile :=
  let contacts := extract_contact_details_dm p.contact_details
  let name_parts := (pySplit p.full_name).map pyCapitalize
  { profile_url := p.url
    handle := p.platform_username
    display_name := p.full_name
    first_name := name_parts.headD ""
    last_name := if name_parts.length > 1 then " ".intercalate (name_parts.drop 1) else ""
    platform := platform
    follower_count := dmFollowerCount p
    engagement_rate := p.engagement_rate.getD 0
    bio := p.bio
    email := dictGet contacts "email"
    phone := dictGet contacts "phone"
    city := p.loc_city
    state := p.loc_state
    country := p.loc_country
    audience_credibility := p.audience_credibility_category
    last_post_date := p.last_post_timestamp
    extra := contacts.filter (fun kv => kv.1 ≠ "email" ∧ kv.1 ≠ "phone") }

/-- `discovery_module._standardize_results`: per-record loop with a
`try/except` that skips a record whose processing raises and continues
with the rest. -/
def standardize_results (platform : String) : List RawResult → List StdProfile
  | [] => []
  | .valid p :: rest => stdProfileOf platform p :: standardize_results platform rest
  | .malformed _ :: rest => standardize_results platform rest

/-- The well-formed records of a raw-results list, in order. -/
def validRecords : List RawResult → List RawProfile
  | [] => []
  | .valid p :: rest => p :: validRecords rest
  | .malformed _ :: rest => validRecords rest

/-- Is a raw result malformed (its processing raises)? -/
def isMalformed : RawResult → Bool
  | .valid _ => false
  | .malformed _ => true

/-- The follower field of the service-client standardizer
(`app/services/insightiq._standardize_results` line 246):
`profile.get('follower_count', 0)` — no subscriber fallback. -/
def svcFollowerCount (p : RawProfile) : Int :=
  p.follower_count.getD 0

/-! ## Job submission (`_start_job`) -/

/-- The vendor's reply to the single `requests.post` of `_start_job`:
either an HTTP response (status code, optional `id` field of the JSON
body, body text) or a transport-level exception. -/
inductive StartResponse where
  | http (code : Nat) (jid : Option String) (text : String)
  | transportError (msg : String)
deriving DecidableEq, Repr

/-- Python truthiness of an optional string: falsy when absent (`None`)
or the empty string. -/
def strTruthy : Option String → Bool
  | some s => s ≠ ""
  | none => false

/-- `discovery_module._start_job` over a trace of vendor replies.  The
second component counts `requests.post` submissions made: the body posts
exactly once and never loops.  Only status 200 is accepted. -/
def start_job_dm : List StartResponse → Except String String × Nat
  | [] => (.error "no response", 0)
  | .http code jid text :: _ =>
    (if code ≠ 200 then .error ("Failed to start job: " ++ text)
     else if strTruthy jid then .ok (jid.getD "") else .error "No job ID returned from API", 1)
  | .transportError msg :: _ =>
    (.error ("Failed to connect to InsightIQ API: " ++ msg), 1)

/-- `app/services/insightiq._start_job`: identical except that both 200
and 202 are accepted. -/
def start_job_svc : List StartResponse → Except String String × Nat
  | [] => (.error "no response", 0)
  | .http code jid text :: _ =>
    (if code ≠ 200 ∧ code ≠ 202 then .error ("Failed to start job: " ++ text)
     else if strTruthy jid then .ok (jid.getD "") else .error "No job ID returned from API", 1)
  | .transportError msg :: _ =>
    (.error ("Failed to connect to InsightIQ API: " ++ msg), 1)

/-! ## Result polling (`_fetch_results`) -/

/-- The JSON page of one poll of the export endpoint: `status` from
`data.get('status')`, `data` from `data.get('data', [])`, the total from
`data.get('metadata', {}).get('total_results', 0)`, and `error` from
`data.get('error', 'Unknown error')` on the FAILED path. -/
structure FetchPage where
  status : Option String := none
  data : List RawResult := []
  total_results : Nat := 0
  error : Option String := none
deriving DecidableEq, Repr

/-- One poll's outcome as seen by the loop: the elapsed wall-clock
seconds at the top-of-loop timeout check, and either an HTTP response
(code, page, body text) or a transport exception. -/
inductive FetchResponse where
  | http (code : Nat) (page : FetchPage) (text : String)
  | transportError (msg : String)
deriving DecidableEq, Repr

/-- A polling trace: elapsed seconds at the check paired with the
response the vendor then returns. -/
abbrev FetchTrace := List (Nat × FetchResponse)

/-- Outcome of `_fetch_results`: success with the accumulated results,
a raised exception message, or an exhausted trace (the modelled vendor
stopped answering; unreachable for real runs, which always answer). -/
inductive FetchOutcome where
  | ok (results : List RawResult)
  | err (msg : String)
  | outOfTrace (offset : Nat) (acc : List RawResult)
deriving DecidableEq, Repr

/-- The `while True` loop of `_fetch_results`, over a response trace,
carrying the running `offset` (limit is fixed at 100) and the `all_results`
accumulator.  Order of the body: timeout check (`elapsed > 600` raises),
HTTP status check, `IN_PROGRESS` → sleep and re-poll at the same offset,
`FAILED` → raise with the vendor's error text, otherwise extend the
accumulator and stop when `offset + limit >= total_results` or the page
was empty, else advance the offset. -/
def fetchGo : FetchTrace → Nat → List RawResult → FetchOutcome
  | [], offset, acc => .outOfTrace offset acc
  | (elapsed, resp) :: rest, offset, acc =>
    if elapsed > 600 then .err "Job timeout after 600 seconds"
    else
      match resp with
      | .transportError msg => .err ("Failed to fetch results: " ++ msg)
      | .http code page text =>
        if code ≠ 200 then .err ("Failed to fetch results: " ++ text)
        else if page.status = some "IN_PROGRESS" then fetchGo rest offset acc
        else if page.status = some "FAILED" then
          .err ("Job failed: " ++ page.error.getD "Unknown error")
        else
          let acc1 := acc ++ page.data
          if offset + 100 ≥ page.total_results ∨ page.data = [] then .ok acc1
          else fetchGo rest (offset + 100) acc1

/-- `discovery_module._fetch_results`: run the loop from offset 0 with an
empty accumulator. -/
def fetch_results (trace : FetchTrace) : FetchOutcome :=
  fetchGo trace 0 []

/-- Does a trace prefix keep the polling loop running (no raise, no
success exit) when entered at the given offset?  Each element must pass
the timeout check, return HTTP 200, and be either `IN_PROGRESS` (offset
unchanged) or a non-terminal results page (more results remain and the
page was non-empty; offset advances by the limit). -/
def keepsPolling : FetchTrace → Nat → Bool
  | [], _ => true
  | (_, .transportError _) :: _, _ => false
  | (elapsed, .http code page _) :: rest, offset =>
    elapsed ≤ 600 && code = 200 &&
      (if page.status = some "IN_PROGRESS" then keepsPolling rest offset
       else
         page.status ≠ some "FAILED" && offset + 100 < page.total_results &&
           page.data ≠ [] && keepsPolling rest (offset + 100))

/-- Results accumulated across a non-terminal trace prefix: the data of
its result pages, in order (`IN_PROGRESS` pages contribute nothing). -/
def polledData : FetchTrace → List RawResult
  | [] => []
  | (_, .transportError _) :: rest => polledData rest
  | (_, .http _ page _) :: rest =>
    (if page.status = some "IN_PROGRESS" then [] else page.data) ++ polledData rest

/-- The offset after a non-terminal trace prefix entered at `offset`:
it advances by 100 per result page. -/
def offsetAfter : FetchTrace → Nat → Nat
  | [], offset => offset
  | (_, .transportError _) :: rest, offset => offsetAfter rest offset
  | (_, .http _ page _) :: rest, offset =>
    if page.status = some "IN_PROGRESS" then offsetAfter rest offset
    else offsetAfter rest (offset + 100)

/-! ## HubSpot batch import (`discovery_tasks.import_profiles_to_hubspot`) -/

/-- The HubSpot `properties` dict built for one canonical profile, after
the `{k: v for k, v in properties.items() if v is not None}` cleanup.
Integer metrics are rendered as strings for a uniform value type; the
bio is truncated to 5000 characters when non-empty; the trailing loop
adds every `*_url` key of the profile other than `profile_url`. -/
def toHubspotContact (job_id nowIso : String) (p : StdProfile) : List (String × String) :=
  let base : List (String × Option String) :=
    [("platform", some p.platform),
     ("profile_url", some p.profile_url),
     ("instagram_handle", some p.handle),
     ("firstname", some p.first_name),
     ("lastname", some p.last_name),
     ("followers", some (toString p.follower_count)),
     ("engagement_rate", some (toString p.engagement_rate)),
     ("email", p.email),
     ("phone", p.phone),
     ("city", p.city),
     ("state", p.state),
     ("country", p.country),
     ("bio", some (if p.bio ≠ "" then p.bio.take 5000 else "")),
     ("discovery_source", some "insightiq_discovery"),
     ("discovery_job_id", some job_id),
     ("discovery_date", some nowIso),
     ("enrichment_status", some "pending"),
     ("lifecycle_stage", some "lead"),
     ("audience_credibility", p.audience_credibility),
     ("last_post_date", p.last_post_date)]
  let withUrls := base ++
    (p.extra.filter (fun kv => kv.1.endsWith "_url" ∧ kv.1 ≠ "profile_url")).map
      (fun kv => (kv.1, some kv.2))
  withUrls.filterMap (fun kv => kv.2.map (fun v => (kv.1, v)))

/-- Chunking worker, structurally recursive on a fuel bound that any
value at least the list's length satisfies. -/
def chunksOfGo (n : Nat) : Nat → List α → List (List α)
  | _, [] => []
  | 0, _ :: _ => []
  | fuel + 1, a :: t => ((a :: t).take n) :: chunksOfGo n fuel ((a :: t).drop n)

/-- `contacts[i:i+100]` chunking: the batches of `range(0, len(l), n)`
for a positive step `n`. -/
def chunksOf (n : Nat) (l : List α) : List (List α) :=
  chunksOfGo n l.length l

/-- The CRM's reply to one batch-create POST: 201 (all created), 207
with the lengths of its `results` and `errors` lists, any other status
code, or an exception raised by the request itself. -/
inductive HubspotResponse where
  | status201
  | status207 (resultsCount errorsCount : Nat)
  | other (code : Nat) (text : String)
  | exception (msg : String)
deriving DecidableEq, Repr

/-- The per-batch loop of `import_profiles_to_hubspot`, pairing each
chunk with the CRM's reply: 201 adds the whole chunk to `created`, 207
adds `len(results)` to `created` and `len(errors)` to `skipped`, any
other status or an exception adds the whole chunk to `skipped`;
processing always continues with the next chunk. -/
def importGo : List (List α) → List HubspotResponse → Nat × Nat
  | [], _ => (0, 0)
  | _ :: _, [] => (0, 0)
  | batch :: cs, r :: rs =>
    let step : Nat × Nat :=
      match r with
      | .status201 => (batch.length, 0)
      | .status207 a b => (a, b)
      | .other _ _ => (0, batch.length)
      | .exception _ => (0, batch.length)
    let rest := importGo cs rs
    (step.1 + rest.1, step.2 + rest.2)

/-- `discovery_tasks.import_profiles_to_hubspot`: map every profile to a
HubSpot contact, chunk the contacts by 100, and run the batch loop
against the trace of CRM replies, returning `(created, skipped)`. -/
def import_profiles_to_hubspot (job_id nowIso : String) (profiles : List StdProfile)
    (responses : List HubspotResponse) : Nat × Nat :=
  importGo (chunksOf 100 (profiles.map (toHubspotContact job_id nowIso))) responses

/-! ## Job status store (`discovery_tasks.update_discovery_job_status`) -/

/-- The JSON `JobRecord` stored under `discovery_job:<id>`.  `Option`
fields are absent until first written. -/
structure JobRecord where
  job_id : String
  status : Option String := none
  updated_at : Option String := none
  profiles_found : Option Nat := none
  new_contacts_created : Option Nat := none
  duplicates_skipped : Option Nat := none
  error : Option String := none
deriving DecidableEq, Repr

/-- The `**kwargs` of `update_discovery_job_status`: the fields its
callers supply.  `some` marks a supplied field. -/
structure JobFields where
  profiles_found : Option Nat := none
  new_contacts_created : Option Nat := none
  duplicates_skipped : Option Nat := none
  error : Option String := none
deriving DecidableEq, Repr

/-- The Redis store: key to (JSON record, remaining TTL in seconds). -/
abbrev JobStore := String → Option (JobRecord × Nat)

/-- `discovery_tasks.update_discovery_job_status`: load the record at
`discovery_job:<id>` (or a bare `{'job_id': id}` when absent), overwrite
`status`, stamp `updated_at` with the current time, merge the supplied
kwargs over the loaded fields, and `setex` the result with a 86400-second
TTL. -/
def update_discovery_job_status (store : JobStore) (nowIso : String)
    (job_id status : String) (kw : JobFields) : JobStore :=
  let key := "discovery_job:" ++ job_id
  let base : JobRecord :=
    match store key with
    | some (rec, _) => rec
    | none => { job_id := job_id }
  let merged : JobRecord :=
    { job_id := base.job_id
      status := some status
      updated_at := some nowIso
      profiles_found := kw.profiles_found.orElse (fun _ => base.profiles_found)
      new_contacts_created := kw.new_contacts_created.orElse (fun _ => base.new_contacts_created)
      duplicates_skipped := kw.duplicates_skipped.orElse (fun _ => base.duplicates_skipped)
      error := kw.error.orElse (fun _ => base.error) }
  fun k => if k = key then some (merged, 86400) else store k

/-! ## Filters, search parameters and the orchestrating task -/

/-- The user-configurable filters of `discover_instagram_profiles` /
`search_profiles`.  `some` marks keys present in the dict. -/
structure UserFilters where
  max_results : Option Nat := none
  follower_min : Option Nat := none
  follower_max : Option Nat := none
  lookalike_type : Option String := none
  lookalike_username : Option String := none
  creator_interests : List String := []
  hashtags : List String := []
deriving DecidableEq, Repr

/-- Python `str.strip()`: drop leading and trailing whitespace, as a
structural operation on the character list. -/
def pyStrip (s : String) : String :=
  String.mk (((s.data.dropWhile Char.isWhitespace).reverse.dropWhile
    Char.isWhitespace).reverse)

/-- `user_filters.get('lookalike_username', '').strip()`. -/
def lookalikeHandle (uf : UserFilters) : String :=
  pyStrip (uf.lookalike_username.getD "")

/-- `PLATFORM_CONFIGS[platform]['work_platform_id']`. -/
def workPlatformId : String → String
  | "instagram" => "9bb8913b-ddd9-430b-a66a-d74d846e6c66"
  | "youtube" => "14d9ddf5-51c6-415e-bde6-f8ed36ad7054"
  | "tiktok" => "de55aeec-0dc8-4119-bf90-16b3d1f0c987"
  | "facebook" => "ad2fec62-2987-40a0-89fb-23485972598c"
  | _ => ""

/-- The request parameters `discovery_module.search_profiles` builds on
top of the fixed block, restricted to the user-dependent fields.
`subscriber_range` records whether the range was emitted under the
YouTube `subscriber_count` field name. -/
structure SearchParameters where
  work_platform_id : String
  max_results : Nat
  range_min : Nat
  range_max : Nat
  subscriber_range : Bool
  creator_lookalikes : Option String := none
  audience_lookalikes : Option String := none
  creator_interests : Option (List String) := none
  hashtags : Option (List String) := none
deriving DecidableEq, Repr

/-- The parameter-building prefix of
`discovery_module.InsightIQDiscovery.search_profiles` (lines 98–142):
clamp `max_results` at 4000 (default 500), default the follower range to
20000–900000 (under `subscriber_count` for YouTube), attach a creator or
audience lookalike only when the type matches and the stripped handle is
non-empty, and attach the optional list filters when non-empty. -/
def buildSearchParameters (platform : String) (uf : UserFilters) : SearchParameters :=
  let handle := lookalikeHandle uf
  { work_platform_id := workPlatformId platform
    max_results := min (uf.max_results.getD 500) 4000
    range_min := uf.follower_min.getD 20000
    range_max := uf.follower_max.getD 900000
    subscriber_range := platform = "youtube"
    creator_lookalikes :=
      if uf.lookalike_type = some "creator" ∧ handle ≠ "" then some handle else none
    audience_lookalikes :=
      if uf.lookalike_type = some "audience" ∧ handle ≠ "" then some handle else none
    creator_interests :=
      if uf.creator_interests ≠ [] then some uf.creator_interests else none
    hashtags :=
      if uf.hashtags ≠ [] then some uf.hashtags else none }

/-- Observable outcome of one run of
`discovery_tasks.discover_instagram_profiles`: the ordered
`update_discovery_job_status` calls as (status, kwargs) pairs, whether
the vendor client (`search_profiles`) was invoked, whether the HubSpot
importer was invoked, and the task's return value — `.ok` carries
`(profiles_found, new_contacts, duplicates)`, `.error` the message of
the raised exception. -/
instance {ε α : Type} [DecidableEq ε] [DecidableEq α] : DecidableEq (Except ε α)
  | .ok a, .ok b =>
    if h : a = b then isTrue (congrArg Except.ok h)
    else isFalse (fun he => h (Except.ok.inj he))
  | .error a, .error b =>
    if h : a = b then isTrue (congrArg Except.error h)
    else isFalse (fun he => h (Except.error.inj he))
  | .ok _, .error _ => isFalse (fun he => Except.noConfusion he)
  | .error _, .ok _ => isFalse (fun he => Except.noConfusion he)

structure TaskOutcome where
  statusUpdates : List (String × JobFields)
  vendorCalled : Bool
  importCalled : Bool
  result : Except String (Nat × Nat × Nat)
deriving DecidableEq, Repr

/-- `discovery_tasks.discover_instagram_profiles`, parameterised by the
environment (credential presence) and by traces for the two external
collaborators: `discovery` is what `client.search_profiles` would
produce (its standardized profiles, or the raised error's message), and
`importResponses` the CRM's per-batch replies.  The body mirrors the
`try` block: mark `discovering`; check credentials; validate the
lookalike filters; run discovery; mark `importing`; import; mark
`completed` — any raise is caught, the job is marked `failed` with the
error text, and the exception is re-raised. -/
def runDiscoverTask (credsPresent hubspotKeyPresent : Bool) (job_id nowIso : String)
    (uf : UserFilters) (discovery : Except String (List StdProfile))
    (importResponses : List HubspotResponse) : TaskOutcome :=
  let u1 : String × JobFields := ("discovering", {})
  if ¬ credsPresent then
    let msg := "INSIGHTIQ_CLIENT_ID and INSIGHTIQ_SECRET must be set in environment"
    { statusUpdates := [u1, ("failed", { error := some msg })]
      vendorCalled := false, importCalled := false, result := .error msg }
  else
    let lt := uf.lookalike_type
    let lu := lookalikeHandle uf
    if strTruthy lt ∧ lt ≠ some "creator" ∧ lt ≠ some "audience" then
      let msg := "lookalike_type must be 'creator' or 'audience'"
      { statusUpdates := [u1, ("failed", { error := some msg })]
        vendorCalled := false, importCalled := false, result := .error msg }
    else if strTruthy lt ∧ lu = "" then
      let msg := "lookalike_username required when lookalike_type is set"
      { statusUpdates := [u1, ("failed", { error := some msg })]
        vendorCalled := false, importCalled := false, result := .error msg }
    else
      match discovery with
      | .error msg =>
        { statusUpdates := [u1, ("failed", { error := some msg })]
          vendorCalled := true, importCalled := false, result := .error msg }
      | .ok profiles =>
        let u2 : String × JobFields := ("importing", { profiles_found := some profiles.length })
        if ¬ hubspotKeyPresent then
          let msg := "HUBSPOT_API_KEY must be set in environment"
          { statusUpdates := [u1, u2, ("failed", { error := some msg })]
            vendorCalled := true, importCalled := true, result := .error msg }
        else
          let res := import_profiles_to_hubspot job_id nowIso profiles importResponses
          let u3 : String × JobFields :=
            ("completed",
             { profiles_found := some profiles.length
               new_contacts_created := some res.1
               duplicates_skipped := some res.2 })
          { statusUpdates := [u1, u2, u3]
            vendorCalled := true, importCalled := true
            result := .ok (profiles.length, res.1, res.2) }

/-! ## Helper lemmas: dict semantics -/

theorem dictGet_dictInsert_self (d : List (String × String)) (k v : String) :
    dictGet (dictInsert d k v) k = some v := by
  induction d with
  | nil => simp [dictInsert, dictGet]
  | cons p rest ih =>
    obtain ⟨k0, v0⟩ := p
    by_cases h : k0 = k
    · simp [dictInsert, h, dictGet]
    · simp only [dictInsert, if_neg h]
      simpa [dictGet, List.find?, h] using ih

theorem dictGet_dictInsert_ne (d : List (String × String)) (k v k1 : String) (h : k1 ≠ k) :
    dictGet (dictInsert d k v) k1 = dictGet d k1 := by
  induction d with
  | nil => simp [dictInsert, dictGet, Ne.symm h]
  | cons p rest ih =>
    obtain ⟨k0, v0⟩ := p
    by_cases h0 : k0 = k
    · subst h0
      simp [dictInsert, dictGet, List.find?, Ne.symm h]
    · simp only [dictInsert, if_neg h0]
      by_cases h1 : k0 = k1
      · simp [dictGet, List.find?, h1]
      · simpa [dictGet, List.find?, h1] using ih

/-- The keys of an embedded dict. -/
def dictKeys (d : List (String × String)) : List String :=
  d.map Prod.fst

theorem dictKeys_dictInsert_of_has (d : List (String × String)) (k v : String)
    (h : dictHas d k = true) : dictKeys (dictInsert d k v) = dictKeys d := by
  induction d with
  | nil => simp [dictHas] at h
  | cons p rest ih =>
    obtain ⟨k0, v0⟩ := p
    by_cases h0 : k0 = k
    · simp [dictInsert, h0, dictKeys]
    · simp only [dictHas, List.any_cons, decide_eq_true_eq, Bool.or_eq_true] at h
      rcases h with h | h

      · exact absurd h h0
      · simp only [dictInsert, if_neg h0, dictKeys, List.map_cons]
        have := ih (by simpa [dictHas] using h)
        simpa [dictKeys] using congrArg (List.cons k0) this

theorem dictKeys_dictInsert_of_not_has (d : List (String × String)) (k v : String)
    (h : dictHas d k = false) : dictKeys (dictInsert d k v) = dictKeys d ++ [k] := by
  induction d with
  | nil => simp [dictInsert, dictKeys]
  | cons p rest ih =>
    obtain ⟨k0, v0⟩ := p
    simp only [dictHas, List.any_cons, Bool.or_eq_false_iff, decide_eq_false_iff_not] at h
    simp only [dictInsert, if_neg h.1, dictKeys, List.map_cons, List.cons_append]
    have := ih (by simpa [dictHas] using h.2)
    simpa [dictKeys] using congrArg (List.cons k0) this

theorem dictHas_eq_isSome (d : List (String × String)) (k : String) :
    dictHas d k = (dictGet d k).isSome := by
  induction d with
  | nil => simp [dictHas, dictGet]
  | cons p rest ih =>
    obtain ⟨k0, v0⟩ := p
    by_cases h0 : k0 = k
    · simp [dictHas, dictGet, List.find?, h0]
    · simpa [dictHas, dictGet, List.find?, h0] using ih

theorem dictKeys_nodup_dictInsert (d : List (String × String)) (k v : String)
    (h : (dictKeys d).Nodup) : (dictKeys (dictInsert d k v)).Nodup := by
  by_cases hs : dictHas d k = true
  · rwa [dictKeys_dictInsert_of_has d k v hs]
  · rw [dictKeys_dictInsert_of_not_has d k v (by simpa using hs)]
    rw [List.nodup_append]
    refine ⟨h, List.nodup_singleton k, ?_⟩
    intro a ha hb
    simp only [List.mem_singleton] at hb
    subst hb
    have : dictHas d a = true := by
      simp only [dictHas, List.any_eq_true, decide_eq_true_eq]
      simp only [dictKeys, List.mem_map] at ha
      obtain ⟨p, hp, hpa⟩ := ha
      exact ⟨p, hp, hpa⟩
    exact hs this

/-! ## Helper lemmas: contact extraction order -/

/-- Is a contact detail kept by either extractor (non-empty lowered
type and non-empty value)? -/
def detailKept (d : ContactDetail) : Prop :=
  (pyLower d.ctype) ≠ "" ∧ d.value ≠ ""

instance (d : ContactDetail) : Decidable (detailKept d) := by
  unfold detailKept; infer_instance

/-- The value of the first kept detail whose (lowered) type is `k`. -/
def firstValueSvc : List ContactDetail → String → Option String
  | [], _ => none
  | d :: rest, k =>
    if (pyLower d.ctype) = k ∧ detailKept d then some d.value
    else firstValueSvc rest k

/-- The value of the last kept detail whose discovery-module key is `k`. -/
def lastValueDm : List ContactDetail → String → Option String
  | [], _ => none
  | d :: rest, k =>
    match lastValueDm rest k with
    | some v => some v
    | none =>
      if dmContactKey (pyLower d.ctype) = k ∧ detailKept d then some d.value
      else none

theorem svc_foldl_lookup (ds : List ContactDetail) :
    ∀ (contacts : List (String × String)) (k : String),
      dictGet (ds.foldl svcStep contacts) k =
        match dictGet contacts k with
        | some v => some v
        | none => firstValueSvc ds k := by
  induction ds with
  | nil =>
    intro contacts k
    rw [List.foldl_nil]
    cases h : dictGet contacts k <;> simp [h, firstValueSvc]
  | cons d rest ih =>
    intro contacts k
    rw [List.foldl_cons]
    by_cases hkept : detailKept d
    · by_cases hhas : dictHas contacts (pyLower d.ctype) = true
      · have hstep : svcStep contacts d = contacts := by
          simp [svcStep, hhas]
        rw [hstep, ih]
        by_cases hk : (pyLower d.ctype) = k
        · subst hk
          have : (dictGet contacts (pyLower d.ctype)).isSome := by
            rw [← dictHas_eq_isSome]; exact hhas
          obtain ⟨w, hw⟩ := Option.isSome_iff_exists.mp this
          rw [hw]
        · rw [show firstValueSvc (d :: rest) k = firstValueSvc rest k from by
            simp [firstValueSvc, hk]]
      · have hstep : svcStep contacts d = dictInsert contacts (pyLower d.ctype) d.value := by
          simp [svcStep, hkept.1, hkept.2, hhas]
        rw [hstep, ih]
        by_cases hk : (pyLower d.ctype) = k
        · subst hk
          rw [dictGet_dictInsert_self]
          have hnone : dictGet contacts (pyLower d.ctype) = none := by
            cases hdg : dictGet contacts (pyLower d.ctype) with
            | none => rfl
            | some w =>
              exfalso
              apply hhas
              rw [dictHas_eq_isSome, hdg]
              rfl
          rw [hnone]
          simp [firstValueSvc, hkept]
        · rw [dictGet_dictInsert_ne _ _ _ _ (fun he => hk he.symm)]
          rw [show firstValueSvc (d :: rest) k = firstValueSvc rest k from by
            simp [firstValueSvc, hk]]
    · have hstep : svcStep contacts d = contacts := by
        simp only [svcStep, detailKept, not_and_or] at hkept ⊢
        rcases hkept with h | h <;> simp [h]
      rw [hstep, ih]
      rw [show firstValueSvc (d :: rest) k = firstValueSvc rest k from by
        simp [firstValueSvc, hkept]]

theorem dm_foldl_lookup (ds : List ContactDetail) :
    ∀ (contacts : List (String × String)) (k : String),
      dictGet (ds.foldl dmStep contacts) k =
        match lastValueDm ds k with
        | some v => some v
        | none => dictGet contacts k := by
  induction ds with
  | nil =>
    intro contacts k
    simp only [List.foldl_nil, lastValueDm]
  | cons d rest ih =>
    intro contacts k
    rw [List.foldl_cons]
    by_cases hkept : detailKept d
    · have hstep : dmStep contacts d = dictInsert contacts (dmContactKey (pyLower d.ctype)) d.value := by
        simp [dmStep, hkept.1, hkept.2]
      rw [hstep, ih]
      cases hrest : lastValueDm rest k with
      | some v => simp [lastValueDm, hrest]
      | none =>
        simp only [lastValueDm, hrest]
        by_cases hk : dmContactKey (pyLower d.ctype) = k
        · subst hk
          rw [dictGet_dictInsert_self]
          simp [hkept]
        · rw [dictGet_dictInsert_ne _ _ _ _ (fun he => hk he.symm)]
          simp [hk]
    · have hstep : dmStep contacts d = contacts := by
        simp only [dmStep, detailKept, not_and_or] at hkept ⊢
        rcases hkept with h | h <;> simp [h]
      rw [hstep, ih]
      cases hrest : lastValueDm rest k with
      | some v => simp [lastValueDm, hrest]
      | none => simp [lastValueDm, hrest, hkept]

theorem extract_svc_lookup (ds : List ContactDetail) (k : String) :
    dictGet (extract_contact_details_svc ds) k = firstValueSvc ds k := by
  rw [extract_contact_details_svc, svc_foldl_lookup]
  simp [dictGet]

theorem extract_dm_lookup (ds : List ContactDetail) (k : String) :
    dictGet (extract_contact_details_dm ds) k = lastValueDm ds k := by
  rw [extract_contact_details_dm, dm_foldl_lookup]
  cases h : lastValueDm ds k <;> simp [dictGet]

theorem dictKeys_nodup_foldl_svc (ds : List ContactDetail) :
    ∀ contacts, (dictKeys contacts).Nodup →
      (dictKeys (ds.foldl svcStep contacts)).Nodup := by
  induction ds with
  | nil => intro contacts h; simpa using h
  | cons d rest ih =>
    intro contacts h
    rw [List.foldl_cons]
    refine ih _ ?_
    unfold svcStep
    split
    · exact dictKeys_nodup_dictInsert _ _ _ h
    · exact h

theorem dictKeys_nodup_foldl_dm (ds : List ContactDetail) :
    ∀ contacts, (dictKeys contacts).Nodup →
      (dictKeys (ds.foldl dmStep contacts)).Nodup := by
  induction ds with
  | nil => intro contacts h; simpa using h
  | cons d rest ih =>
    intro contacts h
    rw [List.foldl_cons]
    refine ih _ ?_
    unfold dmStep
    split
    · exact dictKeys_nodup_dictInsert _ _ _ h
    · exact h

/-! ## Helper lemmas: standardization -/

theorem standardize_results_eq_map (pl : String) (rs : List RawResult) :
    standardize_results pl rs = (validRecords rs).map (stdProfileOf pl) := by
  induction rs with
  | nil => rfl
  | cons r rest ih => cases r <;> simp [standardize_results, validRecords, ih]

theorem validRecords_length (rs : List RawResult) :
    (validRecords rs).length = rs.length - rs.countP (fun r => isMalformed r) := by
  induction rs with
  | nil => simp [validRecords]
  | cons r rest ih =>
    have hle := List.countP_le_length (p := fun r => isMalformed r) (l := rest)
    cases r with
    | valid p =>
      have h1 : List.countP (fun r => isMalformed r) (RawResult.valid p :: rest) =
          List.countP (fun r => isMalformed r) rest := by
        rw [List.countP_cons]; simp [isMalformed]
      simp only [validRecords, List.length_cons, ih, h1]
      omega
    | malformed t =>
      have h1 : List.countP (fun r => isMalformed r) (RawResult.malformed t :: rest) =
          List.countP (fun r => isMalformed r) rest + 1 := by
        rw [List.countP_cons]; simp [isMalformed]
      simp only [validRecords, List.length_cons, ih, h1]
      omega

/-! ## Helper lemmas: chunking and import counters -/

theorem chunksOfGo_length_sum (n : Nat) (hn : 0 < n) :
    ∀ (fuel : Nat) (l : List α), l.length ≤ fuel →
      ((chunksOfGo n fuel l).map List.length).sum = l.length := by
  intro fuel
  induction fuel with
  | zero =>
    intro l hl
    cases l with
    | nil => simp [chunksOfGo]
    | cons a t => simp at hl
  | succ m ih =>
    intro l hl
    cases l with
    | nil => simp [chunksOfGo]
    | cons a t =>
      rw [chunksOfGo]
      simp only [List.map_cons, List.sum_cons]
      rw [ih ((a :: t).drop n) (by
        simp only [List.length_drop, List.length_cons] at hl ⊢
        omega)]
      simp only [List.length_take, List.length_drop, List.length_cons]
      omega

theorem chunksOf_length_sum (n : Nat) (hn : 0 < n) (l : List α) :
    ((chunksOf n l).map List.length).sum = l.length :=
  chunksOfGo_length_sum n hn l.length l le_rfl

/-- Well-formedness of a CRM reply trace against the chunk list: one
reply per chunk, and every 207 reply's `results` and `errors` lists
together account for exactly the chunk's contacts. -/
def good207 : List (List α) → List HubspotResponse → Bool
  | [], _ => true
  | _ :: _, [] => false
  | c :: cs, r :: rs =>
    (match r with
     | .status207 a b => decide (a + b = c.length)
     | _ => true) && good207 cs rs

theorem importGo_created_add_skipped (cs : List (List α)) :
    ∀ rs, good207 cs rs = true →
      (importGo cs rs).1 + (importGo cs rs).2 = (cs.map List.length).sum := by
  induction cs with
  | nil => intro rs h; simp [importGo]
  | cons c cs ih =>
    intro rs h
    cases rs with
    | nil => simp [good207] at h
    | cons r rs =>
      simp only [good207, Bool.and_eq_true] at h
      have hrec := ih rs h.2
      cases r with
      | status201 => simp only [importGo, List.map_cons, List.sum_cons]; omega
      | status207 a b =>
        have hab : a + b = c.length := by
          have := h.1
          simpa using this
        simp only [importGo, List.map_cons, List.sum_cons]
        omega
      | other code text => simp only [importGo, List.map_cons, List.sum_cons]; omega
      | exception msg => simp only [importGo, List.map_cons, List.sum_cons]; omega

/-! ## Helper lemmas: the polling loop -/

theorem fetchGo_append (pre : FetchTrace) :
    ∀ (offset : Nat) (acc : List RawResult) (t : FetchTrace),
      keepsPolling pre offset = true →
      fetchGo (pre ++ t) offset acc =
        fetchGo t (offsetAfter pre offset) (acc ++ polledData pre) := by
  induction pre with
  | nil =>
    intro offset acc t _
    simp [offsetAfter, polledData]
  | cons er pre ih =>
    obtain ⟨e, r⟩ := er
    intro offset acc t h
    cases r with
    | transportError m => simp [keepsPolling] at h
    | http code page text =>
      simp only [keepsPolling, Bool.and_eq_true, decide_eq_true_eq] at h
      obtain ⟨⟨he, hcode⟩, hbranch⟩ := h
      subst hcode
      rw [List.cons_append]
      show (if e > 600 then FetchOutcome.err "Job timeout after 600 seconds"
        else if (200 : Nat) ≠ 200 then .err ("Failed to fetch results: " ++ text)
        else if page.status = some "IN_PROGRESS" then fetchGo (pre ++ t) offset acc
        else if page.status = some "FAILED" then
          .err ("Job failed: " ++ page.error.getD "Unknown error")
        else
          if offset + 100 ≥ page.total_results ∨ page.data = [] then .ok (acc ++ page.data)
          else fetchGo (pre ++ t) (offset + 100) (acc ++ page.data)) =
        fetchGo t (offsetAfter ((e, .http 200 page text) :: pre) offset)
          (acc ++ polledData ((e, .http 200 page text) :: pre))
      rw [if_neg (by omega : ¬ e > 600), if_neg (by simp : ¬ (200 : Nat) ≠ 200)]
      by_cases hst : page.status = some "IN_PROGRESS"
      · rw [if_pos hst]
        rw [if_pos hst] at hbranch
        rw [ih offset acc t hbranch]
        simp [offsetAfter, polledData, hst]
      · rw [if_neg hst]
        rw [if_neg hst] at hbranch
        simp only [Bool.and_eq_true, decide_eq_true_eq] at hbranch
        obtain ⟨⟨⟨hfail, hlt⟩, hne⟩, hkp⟩ := hbranch
        rw [if_neg hfail]
        rw [if_neg (by
          push_neg
          exact ⟨by omega, hne⟩)]
        rw [ih (offset + 100) (acc ++ page.data) t hkp]
        simp [offsetAfter, polledData, hst, List.append_assoc]

/-- One-step evaluation: a poll whose top-of-loop elapsed time exceeds
600 seconds raises the timeout, whatever the response would have been. -/
theorem fetchGo_timeout (e : Nat) (resp : FetchResponse) (t : FetchTrace) (offset : Nat)
    (acc : List RawResult) (h : e > 600) :
    fetchGo ((e, resp) :: t) offset acc = .err "Job timeout after 600 seconds" := by
  cases resp with
  | http code page text =>
    show (if e > 600 then FetchOutcome.err "Job timeout after 600 seconds"
      else if code ≠ 200 then .err ("Failed to fetch results: " ++ text)
      else if page.status = some "IN_PROGRESS" then fetchGo t offset acc
      else if page.status = some "FAILED" then
        .err ("Job failed: " ++ page.error.getD "Unknown error")
      else if offset + 100 ≥ page.total_results ∨ page.data = [] then .ok (acc ++ page.data)
      else fetchGo t (offset + 100) (acc ++ page.data)) = _
    rw [if_pos h]
  | transportError m =>
    show (if e > 600 then FetchOutcome.err "Job timeout after 600 seconds"
      else .err ("Failed to fetch results: " ++ m)) = _
    rw [if_pos h]

/-- One-step evaluation: a timely 200 page that is neither in progress
nor failed and meets the stop condition ends the loop successfully with
the accumulator extended by the page's data. -/
theorem fetchGo_terminal (e : Nat) (page : FetchPage) (text : String) (t : FetchTrace)
    (offset : Nat) (acc : List RawResult)
    (h2 : e ≤ 600) (h3 : page.status ≠ some "IN_PROGRESS")
    (h4 : page.status ≠ some "FAILED")
    (h5 : offset + 100 ≥ page.total_results ∨ page.data = []) :
    fetchGo ((e, .http 200 page text) :: t) offset acc = .ok (acc ++ page.data) := by
  show (if e > 600 then FetchOutcome.err "Job timeout after 600 seconds"
    else if (200 : Nat) ≠ 200 then .err ("Failed to fetch results: " ++ text)
    else if page.status = some "IN_PROGRESS" then fetchGo t offset acc
    else if page.status = some "FAILED" then
      .err ("Job failed: " ++ page.error.getD "Unknown error")
    else if offset + 100 ≥ page.total_results ∨ page.data = [] then .ok (acc ++ page.data)
    else fetchGo t (offset + 100) (acc ++ page.data)) = _
  rw [if_neg (by omega : ¬ e > 600), if_neg (by simp : ¬ (200 : Nat) ≠ 200),
    if_neg h3, if_neg h4, if_pos h5]

/-- When the injected discovery step fails with some message, the task
marks the job failed with that message, skips the import, and re-raises;
the lookalike-validation hypothesis says the filters pass validation. -/
theorem runDiscoverTask_error (uf : UserFilters) (job_id nowIso msg : String)
    (rs : List HubspotResponse)
    (h3 : strTruthy uf.lookalike_type = false ∨
      ((uf.lookalike_type = some "creator" ∨ uf.lookalike_type = some "audience") ∧
        lookalikeHandle uf ≠ "")) :
    runDiscoverTask true true job_id nowIso uf (.error msg) rs =
      { statusUpdates := [("discovering", {}), ("failed", { error := some msg })]
        vendorCalled := true, importCalled := false, result := .error msg } := by
  have hv1 : ¬ (strTruthy uf.lookalike_type = true ∧
      uf.lookalike_type ≠ some "creator" ∧ uf.lookalike_type ≠ some "audience") := by
    rcases h3 with h | ⟨h, _⟩
    · intro hc
      rw [h] at hc
      exact absurd hc.1 (by simp)
    · rcases h with h | h
      · exact fun hc => hc.2.1 h
      · exact fun hc => hc.2.2 h
  have hv2 : ¬ (strTruthy uf.lookalike_type = true ∧ lookalikeHandle uf = "") := by
    rcases h3 with h | ⟨_, hlu⟩
    · intro hc
      rw [h] at hc
      exact absurd hc.1 (by simp)
    · exact fun hc => hlu hc.2
  simp [runDiscoverTask, hv1, hv2]

/-! ## Claim theorems -/

/-- Claim C6: for every raw-result list of length N in which exactly K
records raise during per-record processing, `_standardize_results`
returns exactly N − K canonical profiles, each the deterministic image
(`stdProfileOf`) of its own well-formed record alone; a malformed record
is skipped and never aborts the remaining records. -/
theorem C6_standardize_per_record (pl : String) (rs : List RawResult) :
    standardize_results pl rs = (validRecords rs).map (stdProfileOf pl) ∧
    (standardize_results pl rs).length =
      rs.length - rs.countP (fun r => isMalformed r) := by
  refine ⟨standardize_results_eq_map pl rs, ?_⟩
  rw [standardize_results_eq_map, List.length_map, validRecords_length]

/-- Claim C7, counterexample: in the discovery-module extractor, two
details of the same type `email` leave the SECOND value in the dict, not
the first — the claim's "first occurrence wins" is false for this
extractor. -/
theorem C7_counterexample :
    dictGet (extract_contact_details_dm
      [{ ctype := "email", value := "first@example.com" },
       { ctype := "email", value := "second@example.com" }]) "email" =
      some "second@example.com" ∧
    (some "second@example.com" : Option String) ≠ some "first@example.com" := by
  constructor
  · decide
  · decide

/-- Claim C7 (amended): both extractors keep at most one value per
distinct contact type (the dict keys are nodup), and lookups are fully
characterised: in the service-client extractor the FIRST kept occurrence
of a type wins, while in the discovery-module extractor the LAST kept
occurrence of a type overwrites earlier ones. -/
theorem C7_contact_extraction_order (ds : List ContactDetail) (k : String) :
    (dictKeys (extract_contact_details_dm ds)).Nodup ∧
    (dictKeys (extract_contact_details_svc ds)).Nodup ∧
    dictGet (extract_contact_details_svc ds) k = firstValueSvc ds k ∧
    dictGet (extract_contact_details_dm ds) k = lastValueDm ds k :=
  ⟨dictKeys_nodup_foldl_dm ds [] (by simp [dictKeys]),
   dictKeys_nodup_foldl_svc ds [] (by simp [dictKeys]),
   extract_svc_lookup ds k, extract_dm_lookup ds k⟩

/-- The record refuting claim C8: the `follower_count` field is present
(with value 0), yet the code falls back to `subscriber_count`. -/
def c8Profile : RawProfile :=
  { follower_count := some 0, subscriber_count := some 7 }

/-- Claim C8, counterexample: `follower_count` is present in the record
(value 0), so the claim says the canonical count must be 0; the code
(`follower_count or subscriber_count`) yields 7 — the fallback also
fires on a present-but-falsy value, not only on absence. -/
theorem C8_counterexample :
    c8Profile.follower_count = some 0 ∧
    (stdProfileOf "instagram" c8Profile).follower_count = 7 ∧
    (7 : Int) ≠ 0 := by
  refine ⟨rfl, rfl, by decide⟩

/-- Claim C8 (amended): the canonical follower count equals the
follower-count field whenever it is present with a non-zero value, and
falls back to the subscriber-count field (default 0) when the
follower-count field is absent OR present with the falsy value 0. -/
theorem C8_follower_fallback (pl : String) (p : RawProfile) :
    (p.follower_count = none →
      (stdProfileOf pl p).follower_count = p.subscriber_count.getD 0) ∧
    (∀ n : Int, p.follower_count = some n → n ≠ 0 →
      (stdProfileOf pl p).follower_count = n) ∧
    (p.follower_count = some 0 →
      (stdProfileOf pl p).follower_count = p.subscriber_count.getD 0) := by
  refine ⟨?_, ?_, ?_⟩
  · intro h
    simp [stdProfileOf, dmFollowerCount, h]
  · intro n h hn
    simp [stdProfileOf, dmFollowerCount, h, hn]
  · intro h
    simp [stdProfileOf, dmFollowerCount, h]

/-- Witness for C8's amended theorem at a concrete record. -/
theorem C8_witness :
    (stdProfileOf "instagram"
      { follower_count := some 5, subscriber_count := some 7 }).follower_count = 5 :=
  (C8_follower_fallback "instagram"
    { follower_count := some 5, subscriber_count := some 7 }).2.1 5 rfl (by decide)

/-- Claim C2: the polling loop returns success with the accumulated
results at the first timely, non-`IN_PROGRESS`, non-`FAILED` page that
satisfies `offset + limit >= total_results` or carries an empty data
list — for EVERY continuation `post` of the trace, so a later change of
the vendor-reported `total_results` cannot affect the outcome. -/
theorem C2_polling_stops_at_first_final_page (pre : FetchTrace) (e : Nat) (page : FetchPage)
    (text : String) (post : FetchTrace)
    (h1 : keepsPolling pre 0 = true) (h2 : e ≤ 600)
    (h3 : page.status ≠ some "IN_PROGRESS") (h4 : page.status ≠ some "FAILED")
    (h5 : offsetAfter pre 0 + 100 ≥ page.total_results ∨ page.data = []) :
    fetch_results (pre ++ (e, .http 200 page text) :: post) =
      .ok (polledData pre ++ page.data) := by
  unfold fetch_results
  rw [fetchGo_append pre 0 [] ((e, .http 200 page text) :: post) h1]
  rw [fetchGo_terminal e page text post (offsetAfter pre 0) ([] ++ polledData pre)
    h2 h3 h4 h5]
  simp

/-- The `IN_PROGRESS` poll of the C2 witness trace. -/
def c2Busy : Nat × FetchResponse :=
  (10, .http 200 { status := some "IN_PROGRESS" } "")

/-- First results page of the C2 witness trace: 100 more than the
running offset remain, so the loop continues. -/
def c2Page1 : Nat × FetchResponse :=
  (80, .http 200 { data := [.valid {}], total_results := 300 } "")

/-- Terminal page of the C2 witness trace: at offset 100,
`100 + 100 >= 150` stops the loop. -/
def c2Page2 : FetchPage :=
  { data := [.malformed "not-a-dict"], total_results := 150 }

/-- A later page whose huge `total_results` must be ignored. -/
def c2Late : Nat × FetchResponse :=
  (95, .http 200 { data := [.valid {}], total_results := 1000000 } "")

/-- Witness for C2 on a concrete trace: polling stops at the first final
page and ignores the later page entirely. -/
theorem C2_witness :
    fetch_results ([c2Busy, c2Page1] ++ (90, .http 200 c2Page2 "") :: [c2Late]) =
      .ok (polledData [c2Busy, c2Page1] ++ c2Page2.data) :=
  C2_polling_stops_at_first_final_page [c2Busy, c2Page1] 90 c2Page2 "" [c2Late]
    (by decide) (by decide) (by decide) (by decide) (by decide)

/-- Claim C3: once elapsed wall-clock time at a poll exceeds the
600-second ceiling, `_fetch_results` raises the fatal timeout whatever
the response would have been and however much progress was made — the
outcome is an error carrying no partial results — and the orchestrating
task, fed that error, marks the job failed with the timeout text,
never invokes the importer, and re-raises. -/
theorem C3_timeout_discards_and_fails_job (pre : FetchTrace) (e : Nat)
    (resp : FetchResponse) (rest : FetchTrace) (uf : UserFilters)
    (job_id nowIso : String) (rs : List HubspotResponse)
    (h1 : keepsPolling pre 0 = true) (h2 : e > 600)
    (h3 : strTruthy uf.lookalike_type = false ∨
      ((uf.lookalike_type = some "creator" ∨ uf.lookalike_type = some "audience") ∧
        lookalikeHandle uf ≠ "")) :
    fetch_results (pre ++ (e, resp) :: rest) = .err "Job timeout after 600 seconds" ∧
    (runDiscoverTask true true job_id nowIso uf
        (.error "Job timeout after 600 seconds") rs).statusUpdates =
      [("discovering", {}),
       ("failed", { error := some "Job timeout after 600 seconds" })] ∧
    (runDiscoverTask true true job_id nowIso uf
        (.error "Job timeout after 600 seconds") rs).importCalled = false ∧
    (runDiscoverTask true true job_id nowIso uf
        (.error "Job timeout after 600 seconds") rs).result =
      .error "Job timeout after 600 seconds" := by
  refine ⟨?_, ?_, ?_, ?_⟩
  · unfold fetch_results
    rw [fetchGo_append pre 0 [] ((e, resp) :: rest) h1]
    exact fetchGo_timeout e resp rest (offsetAfter pre 0) ([] ++ polledData pre) h2
  · rw [runDiscoverTask_error uf job_id nowIso _ rs h3]
  · rw [runDiscoverTask_error uf job_id nowIso _ rs h3]
  · rw [runDiscoverTask_error uf job_id nowIso _ rs h3]

/-- Witness for C3 on a concrete trace and filter set. -/
theorem C3_witness :
    fetch_results ([c2Busy] ++ (601, .http 200 { status := some "IN_PROGRESS" } "") :: []) =
      .err "Job timeout after 600 seconds" ∧
    (runDiscoverTask true true "job-1" "2026-01-01" {}
        (.error "Job timeout after 600 seconds") []).statusUpdates =
      [("discovering", {}),
       ("failed", { error := some "Job timeout after 600 seconds" })] ∧
    (runDiscoverTask true true "job-1" "2026-01-01" {}
        (.error "Job timeout after 600 seconds") []).importCalled = false ∧
    (runDiscoverTask true true "job-1" "2026-01-01" {}
        (.error "Job timeout after 600 seconds") []).result =
      .error "Job timeout after 600 seconds" :=
  C3_timeout_discards_and_fails_job [c2Busy] 601
    (.http 200 { status := some "IN_PROGRESS" } "") [] {} "job-1" "2026-01-01" []
    (by decide) (by decide) (Or.inl rfl)

/-- Claim C1, counterexample: one profile makes one chunk; a 207 reply
whose `results` and `errors` lists are both empty yields
created + skipped = 0, not 1 — the invariant fails for a 207 body that
does not account for the whole chunk. -/
theorem C1_counterexample :
    import_profiles_to_hubspot "job-1" "2026-01-01"
      [stdProfileOf "instagram" {}] [.status207 0 0] = (0, 0) ∧
    (0 : Nat) + 0 ≠ ([stdProfileOf "instagram" {}] : List StdProfile).length := by
  exact ⟨rfl, by decide⟩

/-- Claim C1 (amended): created + skipped equals the number of profiles
submitted PROVIDED the reply trace is well-formed: one reply per chunk
and every 207 reply's `results`/`errors` counts sum to its chunk's size.
Chunks answered 201, another status, or an exception always contribute
exactly their size; only a 207 whose lists fail to partition the chunk
breaks the equality. -/
theorem C1_created_add_skipped_eq_total (job_id nowIso : String)
    (profiles : List StdProfile) (responses : List HubspotResponse)
    (h : good207 (chunksOf 100 (profiles.map (toHubspotContact job_id nowIso)))
      responses = true) :
    (import_profiles_to_hubspot job_id nowIso profiles responses).1 +
      (import_profiles_to_hubspot job_id nowIso profiles responses).2 =
      profiles.length := by
  unfold import_profiles_to_hubspot
  rw [importGo_created_add_skipped _ _ h, chunksOf_length_sum 100 (by omega),
    List.length_map]

/-- Witness for C1's amended theorem: a single chunk answered 201. -/
theorem C1_witness :
    (import_profiles_to_hubspot "job-1" "2026-01-01"
      [stdProfileOf "instagram" {}] [.status201]).1 +
    (import_profiles_to_hubspot "job-1" "2026-01-01"
      [stdProfileOf "instagram" {}] [.status201]).2 = 1 :=
  C1_created_add_skipped_eq_total "job-1" "2026-01-01"
    [stdProfileOf "instagram" {}] [.status201] rfl

/-- The filter set refuting claim C4: a lookalike handle is supplied but
the lookalike type is absent. -/
def c4Filters : UserFilters := { lookalike_username := some "somehandle" }

/-- Claim C4, counterexample: with a set handle and an absent type, no
validation error is raised (the task runs to completion), the vendor IS
called, and the built request carries no lookalike parameter at all —
the misconfigured lookalike is silently dropped, contradicting the
claim's "or vice versa" direction. -/
theorem C4_counterexample :
    strTruthy c4Filters.lookalike_username = true ∧
    c4Filters.lookalike_type = none ∧
    (runDiscoverTask true true "job-1" "now" c4Filters (.ok []) []).vendorCalled = true ∧
    (runDiscoverTask true true "job-1" "now" c4Filters (.ok []) []).result =
      .ok (0, 0, 0) ∧
    (buildSearchParameters "instagram" c4Filters).creator_lookalikes = none ∧
    (buildSearchParameters "instagram" c4Filters).audience_lookalikes = none := by
  refine ⟨rfl, rfl, rfl, rfl, ?_, ?_⟩ <;> decide

/-- Claim C4 (amended): a SET lookalike type with an empty (stripped)
handle is rejected by validation before the vendor client is invoked,
and the job is marked failed with the error text; but the converse
misconfiguration — a handle with an absent/falsy type — raises no error:
the task proceeds to the vendor call and the request simply carries no
lookalike parameter. -/
theorem C4_lookalike_validation (uf : UserFilters) (job_id nowIso : String)
    (discovery : Except String (List StdProfile)) (rs : List HubspotResponse) :
    ((uf.lookalike_type = some "creator" ∨ uf.lookalike_type = some "audience") →
      lookalikeHandle uf = "" →
      (runDiscoverTask true true job_id nowIso uf discovery rs).vendorCalled = false ∧
      (runDiscoverTask true true job_id nowIso uf discovery rs).result =
        .error "lookalike_username required when lookalike_type is set" ∧
      (runDiscoverTask true true job_id nowIso uf discovery rs).statusUpdates =
        [("discovering", {}),
         ("failed",
          { error := some "lookalike_username required when lookalike_type is set" })]) ∧
    (strTruthy uf.lookalike_type = false →
      (runDiscoverTask true true job_id nowIso uf discovery rs).vendorCalled = true ∧
      (buildSearchParameters "instagram" uf).creator_lookalikes = none ∧
      (buildSearchParameters "instagram" uf).audience_lookalikes = none) := by
  constructor
  · intro htype hlu
    have ht : strTruthy uf.lookalike_type = true := by
      rcases htype with h | h <;> rw [h] <;> decide
    rcases htype with h | h <;>
      simp [runDiscoverTask, ht, hlu, h,
        show strTruthy (some "creator") = true from by decide,
        show strTruthy (some "audience") = true from by decide]
  · intro hfalse
    have hc1 : uf.lookalike_type ≠ some "creator" := by
      intro h; rw [h] at hfalse; simp [strTruthy] at hfalse
    have hc2 : uf.lookalike_type ≠ some "audience" := by
      intro h; rw [h] at hfalse; simp [strTruthy] at hfalse
    refine ⟨?_, ?_, ?_⟩
    · cases discovery with
      | error msg => simp [runDiscoverTask, hfalse]
      | ok profiles => simp [runDiscoverTask, hfalse]
    · simp [buildSearchParameters, hc1]
    · simp [buildSearchParameters, hc2]

/-- Witness for C4's amended theorem: both directions instantiated. -/
theorem C4_witness :
    (runDiscoverTask true true "job-1" "now" { lookalike_type := some "creator" }
      (.ok []) []).vendorCalled = false ∧
    (buildSearchParameters "instagram" c4Filters).creator_lookalikes = none :=
  ⟨((C4_lookalike_validation { lookalike_type := some "creator" } "job-1" "now"
      (.ok []) []).1 (Or.inl rfl) rfl).1,
   ((C4_lookalike_validation c4Filters "job-1" "now" (.ok []) []).2 rfl).2.1⟩

/-- Claim C5: both `_start_job` variants post the submission exactly
once (the request counter is 1 on every trace), and any reply whose
status is outside {200, 202}, or whose body lacks a truthy job id,
produces a raised error — never a retry. -/
theorem C5_submit_once_fatal (r : StartResponse) (rest : List StartResponse)
    (h : ∀ code jid text, r = .http code jid text →
      ((code ≠ 200 ∧ code ≠ 202) ∨ strTruthy jid = false)) :
    (start_job_dm (r :: rest)).2 = 1 ∧
    (start_job_svc (r :: rest)).2 = 1 ∧
    (∃ m, (start_job_dm (r :: rest)).1 = .error m) ∧
    (∃ m, (start_job_svc (r :: rest)).1 = .error m) := by
  cases r with
  | transportError m =>
    exact ⟨rfl, rfl, ⟨_, rfl⟩, ⟨_, rfl⟩⟩
  | http code jid text =>
    refine ⟨rfl, rfl, ?_, ?_⟩
    · by_cases hc : code = 200
      · subst hc
        have hj : strTruthy jid = false := by
          rcases h 200 jid text rfl with ⟨h1, _⟩ | h1
          · exact absurd rfl h1
          · exact h1
        exact ⟨"No job ID returned from API", by simp [start_job_dm, hj]⟩
      · exact ⟨"Failed to start job: " ++ text, by simp [start_job_dm, hc]⟩
    · by_cases hc : code ≠ 200 ∧ code ≠ 202
      · exact ⟨"Failed to start job: " ++ text, by simp [start_job_svc, hc.1, hc.2]⟩
      · have hj : strTruthy jid = false := by
          rcases h code jid text rfl with h1 | h1
          · exact absurd h1 hc
          · exact h1
        exact ⟨"No job ID returned from API", by simp [start_job_svc, hc, hj]⟩

/-- Witness for C5 at a concrete rejected submission. -/
theorem C5_witness :
    (start_job_dm [.http 500 (some "jid-1") "server error"]).2 = 1 ∧
    (∃ m, (start_job_dm [.http 500 (some "jid-1") "server error"]).1 = .error m) := by
  have T := C5_submit_once_fatal (.http 500 (some "jid-1") "server error") []
    (by
      intro code jid text he
      cases he
      exact Or.inl ⟨by decide, by decide⟩)
  exact ⟨T.1, T.2.2.1⟩

/-- The record `update_discovery_job_status` starts from: the stored
record when one exists under `discovery_job:<id>`, else a bare record
keyed by the job id. -/
def loadedRecord (store : JobStore) (job_id : String) : JobRecord :=
  match store ("discovery_job:" ++ job_id) with
  | some (rec, _) => rec
  | none => { job_id := job_id }

/-- Claim C9: after `update_discovery_job_status(job_id, status, fields)`
the stored record has the supplied status (overwritten), a fresh
updated-at stamp, each supplied field at its supplied value and each
unsupplied field carried over from the loaded record (a bare record
keyed by the job id when none existed), with the TTL reset to 86400
seconds; every other key of the store is untouched. -/
theorem C9_status_update_rmw (store : JobStore) (nowIso job_id status : String)
    (kw : JobFields) :
    ∀ k : String,
      update_discovery_job_status store nowIso job_id status kw k =
        if k = "discovery_job:" ++ job_id then
          some ({ job_id := (loadedRecord store job_id).job_id
                  status := some status
                  updated_at := some nowIso
                  profiles_found := kw.profiles_found.orElse
                    (fun _ => (loadedRecord store job_id).profiles_found)
                  new_contacts_created := kw.new_contacts_created.orElse
                    (fun _ => (loadedRecord store job_id).new_contacts_created)
                  duplicates_skipped := kw.duplicates_skipped.orElse
                    (fun _ => (loadedRecord store job_id).duplicates_skipped)
                  error := kw.error.orElse
                    (fun _ => (loadedRecord store job_id).error) }, 86400)
        else store k := by
  intro k
  rfl

/-- Claim C10: every run of the discovery task writes status
`discovering` first — before credentials are read or the lookalike
filters are validated — so a run whose filters fail lookalike validation
passes through `discovering` and then `failed`, never jumping straight
from `queued` to `failed`. -/
theorem C10_discovering_precedes_validation (credsPresent hubspotKeyPresent : Bool)
    (job_id nowIso : String) (uf : UserFilters)
    (discovery : Except String (List StdProfile)) (rs : List HubspotResponse) :
    ((runDiscoverTask credsPresent hubspotKeyPresent job_id nowIso uf discovery
        rs).statusUpdates.map Prod.fst).head? = some "discovering" ∧
    (credsPresent = true → strTruthy uf.lookalike_type = true →
      ((uf.lookalike_type ≠ some "creator" ∧ uf.lookalike_type ≠ some "audience") ∨
        lookalikeHandle uf = "") →
      (runDiscoverTask credsPresent hubspotKeyPresent job_id nowIso uf discovery
        rs).statusUpdates.map Prod.fst = ["discovering", "failed"]) := by
  constructor
  · unfold runDiscoverTask
    cases credsPresent with
    | false => rfl
    | true =>
      by_cases hv1 : strTruthy uf.lookalike_type = true ∧
          uf.lookalike_type ≠ some "creator" ∧ uf.lookalike_type ≠ some "audience"
      · simp [hv1]
      · by_cases hv2 : strTruthy uf.lookalike_type = true ∧ lookalikeHandle uf = ""
        · have hv3 : ¬ (¬ uf.lookalike_type = some "creator" ∧
              ¬ uf.lookalike_type = some "audience") :=
            fun hc => hv1 ⟨hv2.1, hc.1, hc.2⟩
          simp [hv2.1, hv2.2, hv3]
        · cases discovery with
          | error msg => simp [hv1, hv2]
          | ok profiles =>
            cases hubspotKeyPresent with
            | false => simp [hv1, hv2]
            | true => simp [hv1, hv2]
  · intro hcreds ht hbad
    subst hcreds
    unfold runDiscoverTask
    by_cases hv1 : strTruthy uf.lookalike_type = true ∧
        uf.lookalike_type ≠ some "creator" ∧ uf.lookalike_type ≠ some "audience"
    · simp [hv1]
    · have hlu : lookalikeHandle uf = "" := by
        rcases hbad with hbad | hbad
        · exact absurd ⟨ht, hbad.1, hbad.2⟩ hv1
        · exact hbad
      have hv3 : ¬ (¬ uf.lookalike_type = some "creator" ∧
          ¬ uf.lookalike_type = some "audience") :=
        fun hc => hv1 ⟨ht, hc.1, hc.2⟩
      simp [hv3, ht, hlu]

/-- Witness for C10: creator lookalike with no handle, run with
credentials present. -/
theorem C10_witness :
    (runDiscoverTask true true "job-1" "now" { lookalike_type := some "creator" }
      (.ok []) []).statusUpdates.map Prod.fst = ["discovering", "failed"] :=
  (C10_discovering_precedes_validation true true "job-1" "now"
    { lookalike_type := some "creator" } (.ok []) []).2 rfl (by decide)
    (Or.inr rfl)

/-- Witness for C6 at a concrete two-record batch (one malformed). -/
theorem C6_witness :
    (standardize_results "instagram" [.valid {}, .malformed "bad"]).length =
      ([RawResult.valid {}, RawResult.malformed "bad"] : List RawResult).length -
        ([RawResult.valid {}, RawResult.malformed "bad"] : List RawResult).countP
          (fun r => isMalformed r) :=
  (C6_standardize_per_record "instagram" [.valid {}, .malformed "bad"]).2

/-- Witness for C7's amended theorem at a concrete duplicate pair. -/
theorem C7_witness :
    dictGet (extract_contact_details_svc
      [{ ctype := "email", value := "a" }, { ctype := "email", value := "b" }]) "email" =
      firstValueSvc
        [{ ctype := "email", value := "a" }, { ctype := "email", value := "b" }] "email" :=
  (C7_contact_extraction_order
    [{ ctype := "email", value := "a" }, { ctype := "email", value := "b" }] "email").2.2.1

/-- Witness for C9 at a concrete empty store: a foreign key is untouched. -/
theorem C9_witness :
    update_discovery_job_status (fun _ => none) "2026-01-01" "j1" "completed" {}
      "other-key" = none := by
  rw [C9_status_update_rmw (fun _ => none) "2026-01-01" "j1" "completed" {} "other-key"]
  rw [if_neg (by decide)]

end SocialDiscovery
